import Mathlib

/-!
Verification of the sandbox driver in
`src/server/contest/sandbox/sandbox.c` of the crux-judge repository.

The file shallowly embeds the parent controller `sandboxExec`, the child
bootstrap `childFunc` and the outcome classifier as Lean functions.
Effectful steps (system calls) are modelled by an environment of Booleans
saying whether each call succeeds, and each run produces the list of
side-effect events in the order the source performs them, together with
the returned value.
-/

namespace Sandbox

/-! ## Wait-status decoding

The parent inspects the `wstatus` produced by `waitpid` through the glibc
macros `WIFEXITED`, `WIFSIGNALED` and `WEXITSTATUS`.  These are modelled on
the standard Linux encoding of the status word:
`WTERMSIG = status & 0x7f`, `WIFEXITED ⟺ WTERMSIG = 0`,
`WIFSIGNALED ⟺ ((signed char)(((status & 0x7f) + 1) >> 1)) > 0`, i.e. the
low seven bits lie strictly between 0 and 0x7f, and
`WEXITSTATUS = (status >> 8) & 0xff`. -/

def wtermsig (w : Nat) : Nat := w % 128

def wifexited (w : Nat) : Bool := w % 128 == 0

def wifsignaled (w : Nat) : Bool := (w % 128 != 0) && (w % 128 != 127)

def wexitstatus (w : Nat) : Nat := (w / 256) % 256

/-- `#define EXIT_CHILD_FAILURE 1` (sandbox.c line 23): the status the
child returns from `childFunc` when any setup step fails. -/
def EXIT_CHILD_FAILURE : Nat := 1

/-- Modelled from the spec: the six outcome codes `SB_FAILURE`,
`SB_RUNTIME_ERR`, `SB_OK`, `SB_MEM_EXCEED`, `SB_TIME_EXCEED`,
`SB_TASK_EXCEED` are declared in `sandbox.h`, which is not under `src/`;
only their distinctness matters to the driver, so they are modelled as an
inductive type. -/
inductive SBResult where
  | failure
  | runtime_err
  | ok
  | mem_exceed
  | time_exceed
  | task_exceed
  deriving DecidableEq, Repr

/-- Modelled from the spec: the exceeded-cause constants are declared in
`resource_limits.h`, which is not under `src/`.  The spec names the
variants {NONE, FATAL, MEMORY, WALL_CLOCK, TASKS}; the C code switches on
an `int` with a `default` case, so they are modelled as five distinct
integers, the variable itself ranging over all of `Int`. -/
def NO_EXCEED : Int := 0

/-- Modelled from the spec: see `NO_EXCEED`. -/
def FATAL_ERROR_EXCEED : Int := 1

/-- Modelled from the spec: see `NO_EXCEED`. -/
def MEM_LIM_EXCEED : Int := 2

/-- Modelled from the spec: see `NO_EXCEED`. -/
def TIME_LIM_EXCEED : Int := 3

/-- Modelled from the spec: see `NO_EXCEED`. -/
def TASK_LIM_EXCEED : Int := 4

/-- The `switch (exceeded)` at sandbox.c lines 311-345, reached when the
child exited with a non-sentinel status or was signaled. -/
def exceededSwitch (w : Nat) (x : Int) : SBResult :=
  if x = NO_EXCEED then
    if wifsignaled w = true then SBResult.runtime_err else SBResult.ok
  else if x = FATAL_ERROR_EXCEED then SBResult.failure
  else if x = MEM_LIM_EXCEED then SBResult.mem_exceed
  else if x = TIME_LIM_EXCEED then SBResult.time_exceed
  else if x = TASK_LIM_EXCEED then SBResult.task_exceed
  else SBResult.failure

/-- The outcome classification at sandbox.c lines 293-345: a normal exit
with `EXIT_CHILD_FAILURE` is a sandbox failure; a status that is neither
an exit nor a signal is a sandbox failure; otherwise the `exceeded`
switch decides. -/
def classify (w : Nat) (x : Int) : SBResult :=
  if wifexited w = true then
    if wexitstatus w = EXIT_CHILD_FAILURE then SBResult.failure
    else exceededSwitch w x
  else if wifsignaled w = true then exceededSwitch w x
  else SBResult.failure

/-! ## Child bootstrap (`childFunc`, sandbox.c lines 39-135)

The child performs a fixed sequence of fallible steps; on the first
failure it prints a diagnostic and returns `EXIT_CHILD_FAILURE`, and if
every step succeeds it calls `execl`.  Each step is modelled by a Boolean
in `ChildEnv` saying whether the underlying call succeeds, and a run
produces the list of steps that were performed successfully, in source
order, plus the resulting status. -/

/-- Side effects of the child bootstrap, one per call site in
`childFunc`, in source order. -/
inductive CEvent where
  | open_input
  | open_output
  | dup_stdin
  | dup_stdout
  | close_input_fd
  | close_output_fd
  | write_ready
  | read_go
  | close_chan_child
  | close_chan_parent
  | open_whitelist
  | chdir_jail
  | chroot_jail
  | drop_gid
  | drop_uid
  | install_filter
  | exec_call
  deriving DecidableEq, Repr

/-- Success or failure of each fallible call made by `childFunc`, in
source order. -/
structure ChildEnv where
  open_input_ok : Bool
  open_output_ok : Bool
  dup_stdin_ok : Bool
  dup_stdout_ok : Bool
  close_input_ok : Bool
  close_output_ok : Bool
  write_ready_ok : Bool
  read_go_ok : Bool
  close_chan_child_ok : Bool
  close_chan_parent_ok : Bool
  open_whitelist_ok : Bool
  chdir_ok : Bool
  chroot_ok : Bool
  setgid_ok : Bool
  setuid_ok : Bool
  filter_ok : Bool
  execl_ok : Bool
  deriving DecidableEq, Repr

/-- The result of the child bootstrap: either the process image was
replaced by `execl`, or `childFunc` returned an exit status. -/
inductive ChildStatus where
  | exited (code : Nat)
  | execed
  deriving DecidableEq, Repr

/-- The sixteen setup steps of `childFunc` before the `execl` call, in
source order (sandbox.c lines 42-129), each paired with whether the
underlying call succeeds. -/
def childSteps (e : ChildEnv) : List (CEvent × Bool) :=
  [(CEvent.open_input, e.open_input_ok),
   (CEvent.open_output, e.open_output_ok),
   (CEvent.dup_stdin, e.dup_stdin_ok),
   (CEvent.dup_stdout, e.dup_stdout_ok),
   (CEvent.close_input_fd, e.close_input_ok),
   (CEvent.close_output_fd, e.close_output_ok),
   (CEvent.write_ready, e.write_ready_ok),
   (CEvent.read_go, e.read_go_ok),
   (CEvent.close_chan_child, e.close_chan_child_ok),
   (CEvent.close_chan_parent, e.close_chan_parent_ok),
   (CEvent.open_whitelist, e.open_whitelist_ok),
   (CEvent.chdir_jail, e.chdir_ok),
   (CEvent.chroot_jail, e.chroot_ok),
   (CEvent.drop_gid, e.setgid_ok),
   (CEvent.drop_uid, e.setuid_ok),
   (CEvent.install_filter, e.filter_ok)]

/-- Run a sequence of fallible steps: each C step either succeeds and the
next one runs, or fails and the function returns immediately.  The Boolean
result says whether every step succeeded. -/
def runSteps : List (CEvent × Bool) → List CEvent × Bool
  | [] => ([], true)
  | (ev, ok) :: rest =>
      if ok = true then (ev :: (runSteps rest).1, (runSteps rest).2)
      else ([], false)

/-- The child bootstrap: run the sixteen setup steps; if all succeed,
call `execl` (which returns only on failure, in which case the child
returns `EXIT_CHILD_FAILURE`); if any fails, return `EXIT_CHILD_FAILURE`
at once. -/
def childFunc (e : ChildEnv) : List CEvent × ChildStatus :=
  if (runSteps (childSteps e)).2 = true then
    ((runSteps (childSteps e)).1 ++ [CEvent.exec_call],
     if e.execl_ok = true then ChildStatus.execed
     else ChildStatus.exited EXIT_CHILD_FAILURE)
  else ((runSteps (childSteps e)).1, ChildStatus.exited EXIT_CHILD_FAILURE)

/-- The trace of a child run in which every setup step and the exec
succeed. -/
def fullChildTrace : List CEvent :=
  [CEvent.open_input, CEvent.open_output, CEvent.dup_stdin,
   CEvent.dup_stdout, CEvent.close_input_fd, CEvent.close_output_fd,
   CEvent.write_ready, CEvent.read_go, CEvent.close_chan_child,
   CEvent.close_chan_parent, CEvent.open_whitelist, CEvent.chdir_jail,
   CEvent.chroot_jail, CEvent.drop_gid, CEvent.drop_uid,
   CEvent.install_filter, CEvent.exec_call]

/-- A `ChildEnv` in which every call succeeds. -/
def childEnvAllOk : ChildEnv :=
  ⟨true, true, true, true, true, true, true, true, true, true, true,
   true, true, true, true, true, true⟩

/-! ## Parent controller (`sandboxExec`, sandbox.c lines 162-345)

The parent creates the notification channel, allocates the child stack,
clones the child, performs the two-token rendezvous around limit
installation, waits for the child and classifies the outcome.  Each
fallible call is modelled by a Boolean in `ParentEnv`; `read` on the
parent end fails when the `eventfd` that produced that end failed
(returned `-1`), which the source never checks, and likewise for `write`
on the child end. -/

/-- `CLONE_NEWPID` from the Linux headers (`0x20000000`), used at
sandbox.c line 197. -/
def CLONE_NEWPID : Nat := 0x20000000

/-- `SIGCHLD` on Linux (`17`), used at sandbox.c line 197. -/
def SIGCHLD : Nat := 17

/-- The flag word passed to `clone` at sandbox.c line 197:
`CLONE_NEWPID | SIGCHLD`. -/
def cloneFlags : Nat := CLONE_NEWPID ||| SIGCHLD

/-- Side effects of the parent controller, one per call site in
`sandboxExec`, in source order. -/
inductive PEvent where
  | create_channel
  | alloc_stack
  | clone_child (flags : Nat)
  | read_ready
  | sigterm_child
  | install_limits
  | write_go
  | remove_cgroup_dirs
  | free_stack
  | close_chan_p
  | close_chan_c
  | wait_child
  | publish_terminated
  | release_filter
  | wait_done
  | set_skip_none
  | cancel_term
  | free_term_handle
  | classify_outcome
  deriving DecidableEq, Repr

/-- Success or failure of each fallible call made by `sandboxExec`, plus
the values the parent observes after `waitpid`: `once_fired` is the
terminator handle's `once` field, `wstatus` the wait status and
`exceeded` the cause written by the limit machinery. -/
structure ParentEnv where
  efd_p_ok : Bool
  efd_c_ok : Bool
  malloc_ok : Bool
  clone_ok : Bool
  read_ok : Bool
  setlimits_ok : Bool
  write_ok : Bool
  once_fired : Bool
  wstatus : Nat
  exceeded : Int
  deriving Repr

/-- `sandboxExecFailCleanup` (sandbox.c lines 137-151): free the child
stack, then close the parent and child channel ends. -/
def failCleanup : List PEvent :=
  [PEvent.free_stack, PEvent.close_chan_p, PEvent.close_chan_c]

/-- The parent controller `sandboxExec`.  Mirrors the source's control
flow: the two `eventfd` results are never checked, so a failed channel
end is only noticed when the rendezvous `read`/`write` on it fails; the
`malloc` failure path returns without any cleanup; every later failure
path SIGTERMs the child and runs `sandboxExecFailCleanup`; only the
go-token write failure additionally removes the per-pid cgroup
directories; and the happy path closes the channel, waits, coordinates
with the terminator and classifies. -/
def sandboxExec (e : ParentEnv) : List PEvent × SBResult :=
  if e.malloc_ok = false then
    ([PEvent.create_channel], SBResult.failure)
  else if e.clone_ok = false then
    ([PEvent.create_channel, PEvent.alloc_stack] ++ failCleanup,
     SBResult.failure)
  else if (e.efd_p_ok && e.read_ok) = false then
    ([PEvent.create_channel, PEvent.alloc_stack,
      PEvent.clone_child cloneFlags, PEvent.sigterm_child] ++ failCleanup,
     SBResult.failure)
  else if e.setlimits_ok = false then
    ([PEvent.create_channel, PEvent.alloc_stack,
      PEvent.clone_child cloneFlags, PEvent.read_ready,
      PEvent.sigterm_child] ++ failCleanup,
     SBResult.failure)
  else if (e.efd_c_ok && e.write_ok) = false then
    ([PEvent.create_channel, PEvent.alloc_stack,
      PEvent.clone_child cloneFlags, PEvent.read_ready,
      PEvent.install_limits, PEvent.sigterm_child,
      PEvent.remove_cgroup_dirs] ++ failCleanup,
     SBResult.failure)
  else
    ([PEvent.create_channel, PEvent.alloc_stack,
      PEvent.clone_child cloneFlags, PEvent.read_ready,
      PEvent.install_limits, PEvent.write_go, PEvent.close_chan_p,
      PEvent.close_chan_c, PEvent.wait_child, PEvent.publish_terminated,
      PEvent.free_stack, PEvent.release_filter] ++
     (if e.once_fired = true then [PEvent.wait_done]
      else [PEvent.set_skip_none, PEvent.cancel_term]) ++
     [PEvent.free_term_handle, PEvent.classify_outcome],
     classify e.wstatus e.exceeded)

/-- A `ParentEnv` in which every call succeeds, the terminator has not
fired, and the child exited normally with status 0. -/
def parentEnvHappy : ParentEnv :=
  ⟨true, true, true, true, true, true, true, false, 0, 0⟩

/-- A `ParentEnv` in which the child-stack `malloc` fails. -/
def envMallocFail : ParentEnv :=
  ⟨true, true, false, true, true, true, true, false, 0, 0⟩

/-- A `ParentEnv` in which `clone` fails. -/
def envCloneFail : ParentEnv :=
  ⟨true, true, true, false, true, true, true, false, 0, 0⟩

/-- A `ParentEnv` in which the `eventfd` for the parent channel end
fails. -/
def envChanFail : ParentEnv :=
  ⟨false, true, true, true, true, true, true, false, 0, 0⟩

/-- A `ParentEnv` in which writing the go-token fails after limit
installation. -/
def envWriteFail : ParentEnv :=
  ⟨true, true, true, true, true, true, false, false, 0, 0⟩

end Sandbox

namespace Sandbox

theorem runSteps_all_eq (l : List (CEvent × Bool)) :
    (runSteps l).2 = true → (runSteps l).1 = l.map Prod.fst := by
  induction l with
  | nil => intro _; rfl
  | cons p rest ih =>
      obtain ⟨ev, ok⟩ := p
      cases ok with
      | false => intro h; simp [runSteps] at h
      | true =>
          intro h
          simp only [runSteps, if_pos rfl] at h ⊢
          simp [ih h]

theorem runSteps_mem (l : List (CEvent × Bool)) (ev : CEvent) :
    ev ∈ (runSteps l).1 → (ev, true) ∈ l := by
  induction l with
  | nil => intro h; simp [runSteps] at h
  | cons p rest ih =>
      obtain ⟨ev', ok⟩ := p
      cases ok with
      | false => intro h; simp [runSteps] at h
      | true =>
          intro h
          simp only [runSteps, if_pos rfl] at h
          rcases List.mem_cons.mp h with h1 | h1
          · subst h1; exact List.mem_cons_self _ _
          · exact List.mem_cons_of_mem _ (ih h1)

theorem runSteps_fail (l : List (CEvent × Bool)) (ev : CEvent) :
    (ev, false) ∈ l → (runSteps l).2 = false := by
  induction l with
  | nil => intro h; simp at h
  | cons p rest ih =>
      obtain ⟨ev', ok⟩ := p
      cases ok with
      | false => intro _; simp [runSteps]
      | true =>
          intro h
          rcases List.mem_cons.mp h with h1 | h1
          · exact absurd (congrArg Prod.snd h1) (by simp)
          · simp only [runSteps, if_pos rfl]
            exact ih h1

/-- C1: outcome classification after waitpid.  A normal exit with the
setup-failure status is FAILURE; otherwise, when the child exited or was
signaled, `exceeded = NONE` gives RUNTIME_ERROR on a signaled child and OK
on a normally-exited child, FATAL gives FAILURE, MEMORY gives
MEMORY_EXCEEDED, WALL_CLOCK gives TIME_EXCEEDED, TASKS gives
TASK_EXCEEDED and any other value gives FAILURE; a child that neither
exited nor was signaled gives FAILURE. -/
theorem c1_outcome_classification (w : Nat) (x : Int) :
    (wifexited w = true → wexitstatus w = EXIT_CHILD_FAILURE →
      classify w x = SBResult.failure) ∧
    (wifexited w = true → wexitstatus w ≠ EXIT_CHILD_FAILURE → x = NO_EXCEED →
      classify w x = SBResult.ok) ∧
    (wifsignaled w = true → x = NO_EXCEED →
      classify w x = SBResult.runtime_err) ∧
    (wifsignaled w = true ∨ (wifexited w = true ∧ wexitstatus w ≠ EXIT_CHILD_FAILURE) →
      (x = FATAL_ERROR_EXCEED → classify w x = SBResult.failure) ∧
      (x = MEM_LIM_EXCEED → classify w x = SBResult.mem_exceed) ∧
      (x = TIME_LIM_EXCEED → classify w x = SBResult.time_exceed) ∧
      (x = TASK_LIM_EXCEED → classify w x = SBResult.task_exceed) ∧
      (x ≠ NO_EXCEED → x ≠ FATAL_ERROR_EXCEED → x ≠ MEM_LIM_EXCEED →
        x ≠ TIME_LIM_EXCEED → x ≠ TASK_LIM_EXCEED →
        classify w x = SBResult.failure)) ∧
    (wifexited w = false → wifsignaled w = false →
      classify w x = SBResult.failure) := by
  have hx : wifexited w = true → wifsignaled w = false := by
    simp only [wifexited, wifsignaled]
    intro h
    simp_all
  refine ⟨?_, ?_, ?_, ?_, ?_⟩
  · intro he hs
    simp [classify, he, hs]
  · intro he hs hn
    simp [classify, he, hs, hn, exceededSwitch, hx he]
  · intro hs hn
    have he : wifexited w = false := by
      simp only [wifexited, wifsignaled] at *
      rcases Bool.and_eq_true _ _ |>.mp hs with ⟨h1, _⟩
      simpa using h1
    simp [classify, he, hs, hn, exceededSwitch]
  · intro hor
    have hsw : classify w x = exceededSwitch w x := by
      rcases hor with hs | ⟨he, hns⟩
      · have he : wifexited w = false := by
          simp only [wifexited, wifsignaled] at *
          rcases Bool.and_eq_true _ _ |>.mp hs with ⟨h1, _⟩
          simpa using h1
        simp [classify, he, hs]
      · simp [classify, he, hns]
    refine ⟨?_, ?_, ?_, ?_, ?_⟩
    · intro h1
      subst h1
      rw [hsw]
      simp [exceededSwitch, NO_EXCEED, FATAL_ERROR_EXCEED]
    · intro h1
      subst h1
      rw [hsw]
      simp [exceededSwitch, NO_EXCEED, FATAL_ERROR_EXCEED, MEM_LIM_EXCEED]
    · intro h1
      subst h1
      rw [hsw]
      simp [exceededSwitch, NO_EXCEED, FATAL_ERROR_EXCEED, MEM_LIM_EXCEED,
        TIME_LIM_EXCEED]
    · intro h1
      subst h1
      rw [hsw]
      simp [exceededSwitch, NO_EXCEED, FATAL_ERROR_EXCEED, MEM_LIM_EXCEED,
        TIME_LIM_EXCEED, TASK_LIM_EXCEED]
    · intro h1 h2 h3 h4 h5
      rw [hsw]
      simp [exceededSwitch, h1, h2, h3, h4, h5]
  · intro he hs
    simp [classify, he, hs]

/-- C1 witness: at `wstatus = 256` (normal exit with status 1, the
sentinel) the classifier returns FAILURE; at `wstatus = 9`
(killed by SIGKILL) with `exceeded = NONE` it returns RUNTIME_ERROR. -/
theorem c1_outcome_classification_witness :
    classify 256 NO_EXCEED = SBResult.failure ∧
    classify 9 NO_EXCEED = SBResult.runtime_err :=
  ⟨(c1_outcome_classification 256 NO_EXCEED).1 (by decide) (by decide),
   (c1_outcome_classification 9 NO_EXCEED).2.2.1 (by decide) rfl⟩

/-- C3: the setup-failure sentinel is `1`, which lies inside the range
0-125 of exit statuses reachable by the untrusted program, so a normal
user exit with status 1 is classified as sandbox FAILURE.  This theorem
records the code-level facts behind that bug: the sentinel is within the
user range and `wstatus = 0x100` (normal exit, status 1) with
`exceeded = NONE` classifies to FAILURE. -/
theorem c3_sentinel_within_user_range :
    EXIT_CHILD_FAILURE = 1 ∧ EXIT_CHILD_FAILURE ≤ 125 ∧
    wifexited 256 = true ∧ wexitstatus 256 = EXIT_CHILD_FAILURE ∧
    classify 256 NO_EXCEED = SBResult.failure := by decide

/-- C10: a user program that runs to completion and exits normally with
status 1 (wstatus `0x100`), with `exceeded = NONE` and no sandbox setup
error, is classified FAILURE, while the same program exiting with status
2 (wstatus `0x200`) is classified OK: exit status 1 is indistinguishable
from the child's internal setup-failure status. -/
theorem c10_user_exit_one_is_failure :
    wifexited 256 = true ∧ wifsignaled 256 = false ∧
    wexitstatus 256 = 1 ∧ EXIT_CHILD_FAILURE = 1 ∧
    classify 256 NO_EXCEED = SBResult.failure ∧
    classify 512 NO_EXCEED = SBResult.ok := by decide

theorem exec_call_not_in_setup (e : ChildEnv) :
    (CEvent.exec_call, true) ∉ childSteps e := by
  simp [childSteps]

theorem childSteps_map_fst (e : ChildEnv) :
    (childSteps e).map Prod.fst =
      [CEvent.open_input, CEvent.open_output, CEvent.dup_stdin,
       CEvent.dup_stdout, CEvent.close_input_fd, CEvent.close_output_fd,
       CEvent.write_ready, CEvent.read_go, CEvent.close_chan_child,
       CEvent.close_chan_parent, CEvent.open_whitelist, CEvent.chdir_jail,
       CEvent.chroot_jail, CEvent.drop_gid, CEvent.drop_uid,
       CEvent.install_filter] := by
  simp [childSteps]

/-- C2: in every run of the child bootstrap that reaches `execve` the
trace is exactly the full setup sequence, in which chdir precedes chroot,
chroot precedes setgid, setgid strictly precedes setuid, setuid precedes
filter installation and filter installation precedes the exec; a run that
execs successfully did reach `execve`; and if any of chroot, setgid,
setuid or filter installation fails, the child returns
`EXIT_CHILD_FAILURE` without ever reaching `execve`. -/
theorem c2_child_setup_ordering (e : ChildEnv) :
    (CEvent.exec_call ∈ (childFunc e).1 →
      (childFunc e).1 = fullChildTrace ∧
      List.indexOf CEvent.chdir_jail (childFunc e).1 <
        List.indexOf CEvent.chroot_jail (childFunc e).1 ∧
      List.indexOf CEvent.chroot_jail (childFunc e).1 <
        List.indexOf CEvent.drop_gid (childFunc e).1 ∧
      List.indexOf CEvent.drop_gid (childFunc e).1 <
        List.indexOf CEvent.drop_uid (childFunc e).1 ∧
      List.indexOf CEvent.drop_uid (childFunc e).1 <
        List.indexOf CEvent.install_filter (childFunc e).1 ∧
      List.indexOf CEvent.install_filter (childFunc e).1 <
        List.indexOf CEvent.exec_call (childFunc e).1) ∧
    ((childFunc e).2 = ChildStatus.execed →
      CEvent.exec_call ∈ (childFunc e).1) ∧
    ((e.chroot_ok = false ∨ e.setgid_ok = false ∨ e.setuid_ok = false ∨
        e.filter_ok = false) →
      (childFunc e).2 = ChildStatus.exited EXIT_CHILD_FAILURE ∧
      CEvent.exec_call ∉ (childFunc e).1) := by
  refine ⟨?_, ?_, ?_⟩
  · intro hm
    by_cases hall : (runSteps (childSteps e)).2 = true
    · have htr : (childFunc e).1 =
          (childSteps e).map Prod.fst ++ [CEvent.exec_call] := by
        simp [childFunc, hall, runSteps_all_eq _ hall]
      have hfull : (childFunc e).1 = fullChildTrace := by
        rw [htr, childSteps_map_fst]
        rfl
      rw [hfull]
      exact ⟨rfl, by decide, by decide, by decide, by decide, by decide⟩
    · exfalso
      have htr : (childFunc e).1 = (runSteps (childSteps e)).1 := by
        simp [childFunc, hall]
      rw [htr] at hm
      exact exec_call_not_in_setup e (runSteps_mem _ _ hm)
  · intro hex
    by_cases hall : (runSteps (childSteps e)).2 = true
    · simp [childFunc, hall]
    · exfalso
      simp [childFunc, hall] at hex
  · intro hfail
    have hfalse : (runSteps (childSteps e)).2 = false := by
      rcases hfail with h | h | h | h
      · exact runSteps_fail _ CEvent.chroot_jail (by simp [childSteps, h])
      · exact runSteps_fail _ CEvent.drop_gid (by simp [childSteps, h])
      · exact runSteps_fail _ CEvent.drop_uid (by simp [childSteps, h])
      · exact runSteps_fail _ CEvent.install_filter (by simp [childSteps, h])
    have hne : ¬ (runSteps (childSteps e)).2 = true := by
      simp [hfalse]
    refine ⟨by simp [childFunc, hne], ?_⟩
    intro hm
    have htr : (childFunc e).1 = (runSteps (childSteps e)).1 := by
      simp [childFunc, hne]
    rw [htr] at hm
    exact exec_call_not_in_setup e (runSteps_mem _ _ hm)

/-- C2 witness: with every call succeeding, the child reaches the exec
and its trace is the full ordered setup sequence. -/
theorem c2_child_setup_ordering_witness :
    CEvent.exec_call ∈ (childFunc childEnvAllOk).1 ∧
    (childFunc childEnvAllOk).1 = fullChildTrace := by
  have hm : CEvent.exec_call ∈ (childFunc childEnvAllOk).1 := by decide
  exact ⟨hm, ((c2_child_setup_ordering childEnvAllOk).1 hm).1⟩

/-- C4 counterexample: on the successful-completion path (every call
succeeds, the child exits normally with status 0) the limits were
installed, so the per-pid cgroup directories were created, yet
`sandboxExec` never removes them, refuting the claim that no per-pid
cgroup directory exists after every return. -/
theorem c4_counterexample_happy_path_keeps_dirs :
    PEvent.install_limits ∈ (sandboxExec parentEnvHappy).1 ∧
    PEvent.remove_cgroup_dirs ∉ (sandboxExec parentEnvHappy).1 ∧
    (sandboxExec parentEnvHappy).2 = SBResult.ok := by decide

/-- C4 (amended): after limit installation the per-pid cgroup directories
are removed on the abort path (go-token write failure), but they are not
removed on the successful-completion path. -/
theorem c4_cgroup_dirs_removal (e : ParentEnv)
    (h1 : e.malloc_ok = true) (h2 : e.clone_ok = true)
    (h3 : (e.efd_p_ok && e.read_ok) = true) (h4 : e.setlimits_ok = true) :
    ((e.efd_c_ok && e.write_ok) = false →
      PEvent.remove_cgroup_dirs ∈ (sandboxExec e).1) ∧
    ((e.efd_c_ok && e.write_ok) = true →
      PEvent.remove_cgroup_dirs ∉ (sandboxExec e).1) := by
  refine ⟨?_, ?_⟩ <;> intro h5
  · simp [sandboxExec, h1, h2, h3, h4, h5]
  · cases ho : e.once_fired <;>
      simp [sandboxExec, h1, h2, h3, h4, h5, ho, failCleanup]

/-- C4 witness: the go-token write failure removes the directories, the
happy path does not. -/
theorem c4_cgroup_dirs_removal_witness :
    PEvent.remove_cgroup_dirs ∈ (sandboxExec envWriteFail).1 ∧
    PEvent.remove_cgroup_dirs ∉ (sandboxExec parentEnvHappy).1 :=
  ⟨(c4_cgroup_dirs_removal envWriteFail rfl rfl rfl rfl).1 rfl,
   (c4_cgroup_dirs_removal parentEnvHappy rfl rfl rfl rfl).2 rfl⟩

/-- C5: when the 1 MiB child-stack `malloc` fails, `sandboxExec` returns
FAILURE immediately without closing either notification-channel
descriptor, although both eventfds were created first: the fds leak on
this return path, contradicting the claimed invariant. -/
theorem c5_malloc_failure_leaks_channel_fds :
    PEvent.create_channel ∈ (sandboxExec envMallocFail).1 ∧
    PEvent.close_chan_p ∉ (sandboxExec envMallocFail).1 ∧
    PEvent.close_chan_c ∉ (sandboxExec envMallocFail).1 ∧
    (sandboxExec envMallocFail).2 = SBResult.failure := by decide

/-- C6 counterexample: with the parent-end `eventfd` failing and every
other call succeeding, `sandboxExec` does return FAILURE, but only after
the child has been created by `clone`: the `eventfd` results are never
checked, so the claim's "without creating the child process" is false. -/
theorem c6_counterexample_child_created :
    envChanFail.efd_p_ok = false ∧
    PEvent.clone_child cloneFlags ∈ (sandboxExec envChanFail).1 ∧
    (sandboxExec envChanFail).2 = SBResult.failure := by decide

/-- C6 (amended): if either `eventfd` of the notification channel fails,
`sandboxExec` still returns FAILURE, but the failure is noticed only at
the first rendezvous I/O on the dead end, after the child has been
created; the parent then SIGTERMs the child, frees the stack and closes
both channel ends. -/
theorem c6_channel_failure_detected_late (e : ParentEnv)
    (h1 : e.malloc_ok = true) (h2 : e.clone_ok = true)
    (h3 : e.efd_p_ok = false ∨ e.efd_c_ok = false) :
    (sandboxExec e).2 = SBResult.failure ∧
    PEvent.clone_child cloneFlags ∈ (sandboxExec e).1 ∧
    PEvent.sigterm_child ∈ (sandboxExec e).1 ∧
    PEvent.free_stack ∈ (sandboxExec e).1 ∧
    PEvent.close_chan_p ∈ (sandboxExec e).1 ∧
    PEvent.close_chan_c ∈ (sandboxExec e).1 := by
  obtain ⟨ep, ec, m, c, r, s, w, o, ws, ex⟩ := e
  simp only at h1 h2
  subst h1 h2
  rcases h3 with h3 | h3
  · simp only at h3
    subst h3
    cases ec <;> cases r <;> cases s <;> cases w <;> cases o <;>
      simp [sandboxExec, failCleanup]
  · simp only at h3
    subst h3
    cases ep <;> cases r <;> cases s <;> cases w <;> cases o <;>
      simp [sandboxExec, failCleanup]

/-- C6 witness: the amended behaviour at the concrete environment where
the parent-end eventfd failed. -/
theorem c6_channel_failure_detected_late_witness :
    (sandboxExec envChanFail).2 = SBResult.failure ∧
    PEvent.clone_child cloneFlags ∈ (sandboxExec envChanFail).1 ∧
    PEvent.sigterm_child ∈ (sandboxExec envChanFail).1 ∧
    PEvent.free_stack ∈ (sandboxExec envChanFail).1 ∧
    PEvent.close_chan_p ∈ (sandboxExec envChanFail).1 ∧
    PEvent.close_chan_c ∈ (sandboxExec envChanFail).1 :=
  c6_channel_failure_detected_late envChanFail rfl rfl (Or.inl rfl)

/-- C7: when writing the go-token fails after resource limits were
installed, the parent SIGTERMs the child, removes the per-pid cgroup
directories, frees the stack, closes both channel ends and returns
FAILURE — the trace is exactly this sequence. -/
theorem c7_write_failure_cleanup (e : ParentEnv)
    (h1 : e.malloc_ok = true) (h2 : e.clone_ok = true)
    (h3 : (e.efd_p_ok && e.read_ok) = true) (h4 : e.setlimits_ok = true)
    (h5 : (e.efd_c_ok && e.write_ok) = false) :
    (sandboxExec e).1 =
      [PEvent.create_channel, PEvent.alloc_stack,
       PEvent.clone_child cloneFlags, PEvent.read_ready,
       PEvent.install_limits, PEvent.sigterm_child,
       PEvent.remove_cgroup_dirs, PEvent.free_stack, PEvent.close_chan_p,
       PEvent.close_chan_c] ∧
    (sandboxExec e).2 = SBResult.failure := by
  simp [sandboxExec, h1, h2, h3, h4, h5, failCleanup]

/-- C7 witness: the cleanup sequence at the concrete environment where
only the go-token write fails. -/
theorem c7_write_failure_cleanup_witness :
    (sandboxExec envWriteFail).1 =
      [PEvent.create_channel, PEvent.alloc_stack,
       PEvent.clone_child cloneFlags, PEvent.read_ready,
       PEvent.install_limits, PEvent.sigterm_child,
       PEvent.remove_cgroup_dirs, PEvent.free_stack, PEvent.close_chan_p,
       PEvent.close_chan_c] ∧
    (sandboxExec envWriteFail).2 = SBResult.failure :=
  c7_write_failure_cleanup envWriteFail rfl rfl rfl rfl rfl

/-- C8: on every path that reaches `waitpid`, the parent publishes
`terminated` after the wait and before any terminator coordination; if
the terminator fired (`once = 1`) it waits for `done` and never calls
cancel, otherwise it sets `skip` to the cancel policy and calls the
cancel entry and never waits for `done`; in both cases the handle is
freed afterwards, and classification happens only after the wait. -/
theorem c8_terminator_coordination (e : ParentEnv)
    (h1 : e.malloc_ok = true) (h2 : e.clone_ok = true)
    (h3 : (e.efd_p_ok && e.read_ok) = true) (h4 : e.setlimits_ok = true)
    (h5 : (e.efd_c_ok && e.write_ok) = true) :
    List.indexOf PEvent.wait_child (sandboxExec e).1 <
      List.indexOf PEvent.publish_terminated (sandboxExec e).1 ∧
    PEvent.wait_child ∈ (sandboxExec e).1 ∧
    PEvent.publish_terminated ∈ (sandboxExec e).1 ∧
    PEvent.free_term_handle ∈ (sandboxExec e).1 ∧
    PEvent.classify_outcome ∈ (sandboxExec e).1 ∧
    (e.once_fired = true →
      PEvent.wait_done ∈ (sandboxExec e).1 ∧
      PEvent.set_skip_none ∉ (sandboxExec e).1 ∧
      PEvent.cancel_term ∉ (sandboxExec e).1 ∧
      List.indexOf PEvent.publish_terminated (sandboxExec e).1 <
        List.indexOf PEvent.wait_done (sandboxExec e).1 ∧
      List.indexOf PEvent.wait_done (sandboxExec e).1 <
        List.indexOf PEvent.free_term_handle (sandboxExec e).1) ∧
    (e.once_fired = false →
      PEvent.set_skip_none ∈ (sandboxExec e).1 ∧
      PEvent.cancel_term ∈ (sandboxExec e).1 ∧
      PEvent.wait_done ∉ (sandboxExec e).1 ∧
      List.indexOf PEvent.publish_terminated (sandboxExec e).1 <
        List.indexOf PEvent.set_skip_none (sandboxExec e).1 ∧
      List.indexOf PEvent.set_skip_none (sandboxExec e).1 <
        List.indexOf PEvent.cancel_term (sandboxExec e).1 ∧
      List.indexOf PEvent.cancel_term (sandboxExec e).1 <
        List.indexOf PEvent.free_term_handle (sandboxExec e).1) ∧
    List.indexOf PEvent.free_term_handle (sandboxExec e).1 <
      List.indexOf PEvent.classify_outcome (sandboxExec e).1 ∧
    List.indexOf PEvent.wait_child (sandboxExec e).1 <
      List.indexOf PEvent.classify_outcome (sandboxExec e).1 := by
  obtain ⟨ep, ec, m, c, r, s, w, o, ws, ex⟩ := e
  simp only at h1 h2 h3 h4 h5
  subst h1 h2 h4
  have hep : ep = true := by
    cases ep <;> simp_all
  have hr : r = true := by
    cases r <;> simp_all
  have hec : ec = true := by
    cases ec <;> simp_all
  have hw : w = true := by
    cases w <;> simp_all
  subst hep hr hec hw
  cases o
  · have ht : (sandboxExec
        ⟨true, true, true, true, true, true, true, false, ws, ex⟩).1 =
        [PEvent.create_channel, PEvent.alloc_stack,
         PEvent.clone_child cloneFlags, PEvent.read_ready,
         PEvent.install_limits, PEvent.write_go, PEvent.close_chan_p,
         PEvent.close_chan_c, PEvent.wait_child,
         PEvent.publish_terminated, PEvent.free_stack,
         PEvent.release_filter, PEvent.set_skip_none, PEvent.cancel_term,
         PEvent.free_term_handle, PEvent.classify_outcome] := rfl
    have ho : (⟨true, true, true, true, true, true, true, false, ws, ex⟩ :
        ParentEnv).once_fired = false := rfl
    simp only [ht, ho]
    decide
  · have ht : (sandboxExec
        ⟨true, true, true, true, true, true, true, true, ws, ex⟩).1 =
        [PEvent.create_channel, PEvent.alloc_stack,
         PEvent.clone_child cloneFlags, PEvent.read_ready,
         PEvent.install_limits, PEvent.write_go, PEvent.close_chan_p,
         PEvent.close_chan_c, PEvent.wait_child,
         PEvent.publish_terminated, PEvent.free_stack,
         PEvent.release_filter, PEvent.wait_done,
         PEvent.free_term_handle, PEvent.classify_outcome] := rfl
    have ho : (⟨true, true, true, true, true, true, true, true, ws, ex⟩ :
        ParentEnv).once_fired = true := rfl
    simp only [ht, ho]
    decide

/-- C8 witness: with the terminator not fired, publishing `terminated`
precedes the cancel request, which precedes freeing the handle. -/
theorem c8_terminator_coordination_witness :
    List.indexOf PEvent.wait_child (sandboxExec parentEnvHappy).1 <
      List.indexOf PEvent.publish_terminated (sandboxExec parentEnvHappy).1 ∧
    PEvent.cancel_term ∈ (sandboxExec parentEnvHappy).1 := by
  have h := c8_terminator_coordination parentEnvHappy rfl rfl rfl rfl rfl
  exact ⟨h.1, (h.2.2.2.2.2.2.1 rfl).2.1⟩

/-- C9: every child creation performed by `sandboxExec` uses exactly the
flags `CLONE_NEWPID | SIGCHLD`, and when `clone` fails the function
returns FAILURE after freeing the child stack and closing both channel
ends (and no child is created). -/
theorem c9_clone_flags_and_failure (e : ParentEnv) :
    (∀ f : Nat, PEvent.clone_child f ∈ (sandboxExec e).1 →
      f = cloneFlags) ∧
    cloneFlags = CLONE_NEWPID ||| SIGCHLD ∧
    (e.malloc_ok = true → e.clone_ok = false →
      (sandboxExec e).1 =
        [PEvent.create_channel, PEvent.alloc_stack, PEvent.free_stack,
         PEvent.close_chan_p, PEvent.close_chan_c] ∧
      (sandboxExec e).2 = SBResult.failure) := by
  refine ⟨?_, rfl, ?_⟩
  · intro f hf
    unfold sandboxExec at hf
    repeat' split at hf
    all_goals simp_all [failCleanup]
  · intro h1 h2
    simp [sandboxExec, h1, h2, failCleanup]

/-- C9 witness: with `clone` failing, the trace is the stack release and
the two channel closes, and the outcome is FAILURE. -/
theorem c9_clone_flags_and_failure_witness :
    (sandboxExec envCloneFail).1 =
      [PEvent.create_channel, PEvent.alloc_stack, PEvent.free_stack,
       PEvent.close_chan_p, PEvent.close_chan_c] ∧
    (sandboxExec envCloneFail).2 = SBResult.failure :=
  (c9_clone_flags_and_failure envCloneFail).2.2 rfl rfl

end Sandbox
